import Mathlib

/-!
Verification of the OpsPilot incident-orchestration core.

Shallow embedding of the orchestrator's alert ingestion (WatcherAgent and the
HTTP webhook handler), the incident lifecycle manager and its in-memory
persistence backend (IncidentManager / DatabaseService with `pool = null`),
the triage hypothesis and suggested-action rules (TriageAgent), and the
remediation batch executor (FixerAgent.applyFix).

Modelling conventions:
- JS objects with string keys become Lean structures; `labels` / `annotations`
  maps become association lists `List (String × String)`.
- Wall-clock timestamps (`new Date()`) are modelled by a strictly increasing
  logical clock `Nat` threaded through the store state; each timestamp draw
  ticks the clock.
- JS `||` on strings is falsy on the empty string; `jsStr` captures this.
- Fallible external calls (GitHub PR creation, Jira, verification polling)
  are environment parameters; a thrown JS exception is an `Except.error`.
- Numeric confidences are embedded as `ℚ` (the JS numbers 0.7 / 0.75 / 0.8 /
  0.1 / 1.0 are exactly representable and only compared / added / min-capped).
-/

namespace OpsPilot

/-- JS truthiness for an optional string: `undefined` and `""` are falsy. -/
def jsStr : Option String → Option String
  | none => none
  | some "" => none
  | some s => some s

/-- `a || b` on (optional) strings, with a final default: first truthy wins. -/
def jsOr (a : Option String) (b : Option String) (d : String) : String :=
  ((jsStr a).orElse fun _ => jsStr b).getD d

/-- Key lookup in a JS-object-as-association-list (`obj?.key`). -/
def lookupStr (m : List (String × String)) (k : String) : Option String :=
  (m.find? (fun p => p.1 == k)).map (fun p => p.2)

/-- Whether `needle` occurs as a contiguous sublist of the list (JS
`String.prototype.includes` on the character lists). -/
def hasSubList [BEq α] (needle : List α) : List α → Bool
  | [] => needle.isEmpty
  | a :: t => ((a :: t).take needle.length == needle) || hasSubList needle t

/-- JS `hay.includes(needle)`. -/
def strIncludes (hay needle : String) : Bool :=
  hasSubList needle.toList hay.toList

/-- JS `s.toLowerCase()` (characterwise; the scanned strings are ASCII). -/
def jsToLower (s : String) : String :=
  String.mk (s.toList.map Char.toLower)

/-- The base64 alphabet used by `Buffer.toString('base64')`. -/
def base64Chars : List Char :=
  "ABCDEFGHIJKLMNOPQRSTUVWXYZabcdefghijklmnopqrstuvwxyz0123456789+/".toList

/-- One base64 output character for a 6-bit value. -/
def b64Char (n : Nat) : Char := base64Chars.getD n '?'

/-- base64-encode a byte list (values < 256), with `=` padding. -/
def b64Go : List UInt8 → List Char
  | [] => []
  | [b1] =>
      let n1 := b1.toNat
      [b64Char (n1 / 4), b64Char (n1 % 4 * 16), '=', '=']
  | [b1, b2] =>
      let n1 := b1.toNat
      let n2 := b2.toNat
      [b64Char (n1 / 4), b64Char (n1 % 4 * 16 + n2 / 16), b64Char (n2 % 16 * 4), '=']
  | b1 :: b2 :: b3 :: rest =>
      let n1 := b1.toNat
      let n2 := b2.toNat
      let n3 := b3.toNat
      b64Char (n1 / 4) :: b64Char (n1 % 4 * 16 + n2 / 16) ::
        b64Char (n2 % 16 * 4 + n3 / 64) :: b64Char (n3 % 64) :: b64Go rest

/-- JS `Buffer.from(key).toString('base64')`. -/
def base64Encode (s : String) : String :=
  String.mk (b64Go s.toUTF8.toList)

/-! ## Data model -/

/-- An ingress alert as it travels on the event bus (the JS objects carry the
fields of the `Alert` interface plus the loose top-level fields the ingestion
and incident-creation code reads: `id`, `summary`, `description`, `severity`). -/
structure Alert where
  id : Option String := none
  fingerprint : String
  summary : Option String := none
  description : Option String := none
  severity : Option String := none
  labels : List (String × String) := []
  annotations : List (String × String) := []
  startsAt : String := ""
  status : Option String := none
  deriving DecidableEq, Repr

/-- A raw alert entry from the Prometheus `/api/v1/alerts` response. -/
structure RawPromAlert where
  state : String
  labels : List (String × String) := []
  annotations : List (String × String) := []
  activeAt : String := ""
  deriving DecidableEq, Repr

/-- A runbook: keyword-indexed ordered remediation steps. -/
structure Runbook where
  id : String
  title : String
  keywords : List String
  steps : List String
  deriving DecidableEq, Repr

/-- A commit record as returned by `checkRecentChanges`. -/
structure CommitInfo where
  sha : String
  message : String
  author : String
  date : String
  url : String
  deriving DecidableEq, Repr

/-- The triage hypothesis record. -/
structure Hypothesis where
  primaryCause : String
  confidence : ℚ
  evidence : List String
  suggestedFix : String
  deriving DecidableEq, Repr

/-- One suggested action of a triage result. -/
structure SuggestedAction where
  type : String
  description : String
  automated : Bool
  runbookId : Option String := none
  deriving DecidableEq, Repr

/-- The triage result assembled by `triageAlert` (the `labels` field is read
defensively by `applyFix` via `triageResult.labels?.service`; the object
produced by `triageAlert` does not set it, which the default captures). -/
structure TriageResult where
  alertId : String
  summary : String
  severity : String
  hypothesis : Hypothesis
  suggestedActions : List SuggestedAction
  runbooks : List Runbook
  labels : List (String × String) := []
  deriving DecidableEq, Repr

/-- The result of a successful GitHub pull-request creation. -/
structure PRInfo where
  url : String
  number : Nat
  state : String
  branch : String
  deriving DecidableEq, Repr

/-- The result of `createJiraTicket` (never throws; failure is in-band). -/
structure TicketResult where
  status : String
  key : String
  url : String
  deriving DecidableEq, Repr

/-- One entry of `FixResult.appliedFixes`, one constructor per dispatch case
of `applyFix`'s switch. -/
inductive AppliedFix where
  | pullRequest (url : String) (status : String)
  | rollback (service : String) (version : String) (status : String)
  | restart (service : String) (status : String)
  | scale (service : String) (replicas : Nat) (status : String)
  | jiraTicket (ticket : String) (url : String) (status : String)
  deriving DecidableEq, Repr

/-- The remediation result record built by `applyFix`. -/
structure FixResultR where
  alertId : String
  appliedFixes : List AppliedFix
  pullRequest : Option PRInfo
  success : Bool
  verificationStatus : String
  deriving DecidableEq, Repr

/-- Timeline event payloads, one constructor per construction site in the
orchestrator (`event_data` is an opaque JSON object in the store). -/
inductive EventData where
  | incidentCreated (alert : Alert) (source : String)
  | statusChanged (previousStatus : String) (newStatus : String) (timestamp : Nat)
  | triaged (hypothesis : Hypothesis) (suggestedActions : List SuggestedAction)
  | fixApplied (pullRequest : Option PRInfo) (appliedFixes : List AppliedFix) (success : Bool)
  deriving DecidableEq, Repr

/-- An append-only timeline record. -/
structure TimelineEvent where
  id : Nat
  incident_id : String
  event_type : String
  event_data : EventData
  created_at : Nat
  deriving DecidableEq, Repr

/-- A typed edge of the memory graph (`metadata` carries a timestamp). -/
structure MemoryRelation where
  id : Nat
  entity_type : String
  entity_id : String
  related_type : String
  related_id : String
  relationship : String
  metadata_timestamp : Nat
  created_at : Nat
  deriving DecidableEq, Repr

/-- The stored incident object of the in-memory backend. The JS object keeps
both spellings of the triage/fix attachments, so both appear as fields. -/
structure Incident where
  id : String
  alert_id : String
  summary : String
  description : String
  severity : String
  status : String
  labels : List (String × String)
  annotations : List (String × String)
  triage_result : Option TriageResult := none
  triageResult : Option TriageResult := none
  fix_result : Option FixResultR := none
  fixResult : Option FixResultR := none
  created_at : Nat
  updated_at : Nat
  deriving DecidableEq, Repr

/-- A partial update passed to `updateIncident`; `none` marks an absent key. -/
structure UpdatePatch where
  status : Option String := none
  summary : Option String := none
  description : Option String := none
  severity : Option String := none
  labels : Option (List (String × String)) := none
  annotations : Option (List (String × String)) := none
  triageResult : Option TriageResult := none
  triage_result : Option TriageResult := none
  fixResult : Option FixResultR := none
  fix_result : Option FixResultR := none
  deriving DecidableEq, Repr

/-- The in-memory storage of `DatabaseService` (`pool = null` branch), plus
the logical clock supplying timestamps. -/
structure DBState where
  incidents : List (String × Incident) := []
  timeline : List TimelineEvent := []
  relations : List MemoryRelation := []
  clock : Nat := 0
  deriving DecidableEq, Repr

/-- The empty store at startup. -/
def emptyDB : DBState := {}

/-! ## Association-list primitives (JS `Map.set` / `Map.get`) -/

/-- `Map.set`: replace the value when the key exists, append otherwise. -/
def insertAssoc (m : List (String × Incident)) (k : String) (v : Incident) :
    List (String × Incident) :=
  if m.any (fun p => p.1 == k) then
    m.map (fun p => if p.1 == k then (k, v) else p)
  else m ++ [(k, v)]

/-- `Map.get`. -/
def lookupAssoc (m : List (String × Incident)) (k : String) : Option Incident :=
  (m.find? (fun p => p.1 == k)).map (fun p => p.2)

/-! ## DatabaseService, in-memory branch (`pool = null`) -/

/-- The object literal built by `IncidentManager.createIncident` and handed
to the store. -/
structure IncidentInit where
  id : String
  alert_id : String
  summary : String
  description : String
  severity : String
  status : String
  labels : List (String × String)
  annotations : List (String × String)
  deriving DecidableEq, Repr

/-- `DatabaseService.createIncident` (in-memory): stamp `created_at` and
`updated_at`, default a falsy `status` to `"open"`, `Map.set` by id. -/
def dbCreateIncident (data : IncidentInit) (db : DBState) : Incident × DBState :=
  let now := db.clock
  let inc : Incident :=
    { id := data.id
      alert_id := data.alert_id
      summary := data.summary
      description := data.description
      severity := data.severity
      status := if data.status == "" then "open" else data.status
      labels := data.labels
      annotations := data.annotations
      created_at := now
      updated_at := now }
  (inc, { db with incidents := insertAssoc db.incidents data.id inc, clock := now + 1 })

/-- Key normalization at the top of `DatabaseService.updateIncident`: a
camelCase attachment moves to the snake_case key when the latter is absent. -/
def normalizePatch (u : UpdatePatch) : UpdatePatch :=
  let u1 :=
    if u.triageResult.isSome && u.triage_result.isNone then
      { u with triage_result := u.triageResult, triageResult := none }
    else u
  if u1.fixResult.isSome && u1.fix_result.isNone then
    { u1 with fix_result := u1.fixResult, fixResult := none }
  else u1

/-- In-memory branch: mirror snake_case attachments back to camelCase on the
object to be assigned, so the stored object keeps both spellings. -/
def mirrorPatch (u : UpdatePatch) : UpdatePatch :=
  let u1 :=
    if u.triage_result.isSome then { u with triageResult := u.triage_result } else u
  if u1.fix_result.isSome then { u1 with fixResult := u1.fix_result } else u1

/-- `Object.assign(incident, toAssign, { updated_at })`: every present key of
the patch overwrites the stored field. -/
def assignPatch (inc : Incident) (u : UpdatePatch) (now : Nat) : Incident :=
  { inc with
    status := u.status.getD inc.status
    summary := u.summary.getD inc.summary
    description := u.description.getD inc.description
    severity := u.severity.getD inc.severity
    labels := u.labels.getD inc.labels
    annotations := u.annotations.getD inc.annotations
    triageResult := if u.triageResult.isSome then u.triageResult else inc.triageResult
    triage_result := if u.triage_result.isSome then u.triage_result else inc.triage_result
    fixResult := if u.fixResult.isSome then u.fixResult else inc.fixResult
    fix_result := if u.fix_result.isSome then u.fix_result else inc.fix_result
    updated_at := now }

/-- `DatabaseService.updateIncident` (in-memory): normalize keys, return
`null` when the id is unknown, else assign the mirrored patch and stamp
`updated_at`. -/
def dbUpdateIncident (id : String) (updates : UpdatePatch) (db : DBState) :
    Option Incident × DBState :=
  let normalized := normalizePatch updates
  match lookupAssoc db.incidents id with
  | none => (none, db)
  | some inc =>
      let toAssign := mirrorPatch normalized
      let now := db.clock
      let inc2 := assignPatch inc toAssign now
      (some inc2, { db with incidents := insertAssoc db.incidents id inc2, clock := now + 1 })

/-- `DatabaseService.getIncident` (in-memory). -/
def dbGetIncident (id : String) (db : DBState) : Option Incident :=
  lookupAssoc db.incidents id

/-- `DatabaseService.addTimelineEvent` (in-memory): append a record with
`id = length + 1` and a fresh timestamp. -/
def dbAddTimelineEvent (incidentId : String) (eventType : String)
    (eventData : EventData) (db : DBState) : TimelineEvent × DBState :=
  let ev : TimelineEvent :=
    { id := db.timeline.length + 1
      incident_id := incidentId
      event_type := eventType
      event_data := eventData
      created_at := db.clock }
  (ev, { db with timeline := db.timeline ++ [ev], clock := db.clock + 1 })

/-- The edge record built by `DatabaseService.addMemoryRelation` before
timestamping. -/
structure RelationInit where
  entity_type : String
  entity_id : String
  related_type : String
  related_id : String
  relationship : String
  metadata_timestamp : Nat
  deriving DecidableEq, Repr

/-- `DatabaseService.addMemoryRelation` (in-memory): append with
`id = length + 1` and a fresh timestamp. -/
def dbAddMemoryRelation (data : RelationInit) (db : DBState) :
    MemoryRelation × DBState :=
  let rel : MemoryRelation :=
    { id := db.relations.length + 1
      entity_type := data.entity_type
      entity_id := data.entity_id
      related_type := data.related_type
      related_id := data.related_id
      relationship := data.relationship
      metadata_timestamp := data.metadata_timestamp
      created_at := db.clock }
  (rel, { db with relations := db.relations ++ [rel], clock := db.clock + 1 })

/-- Whether the queried `(entityType, entityId)` pair matches either side of
an edge — the filter of `DatabaseService.getRelations`. -/
def relMatches (entityType entityId : String) (r : MemoryRelation) : Bool :=
  (r.entity_type == entityType && r.entity_id == entityId) ||
  (r.related_type == entityType && r.related_id == entityId)

/-- The comparator of `getRelations`' sort: newest (largest `created_at`)
first. -/
def newestFirst (a b : MemoryRelation) : Prop := b.created_at ≤ a.created_at

instance : DecidableRel newestFirst := fun a b => Nat.decLe b.created_at a.created_at

/-- `DatabaseService.getRelations` (in-memory): edges matching either side,
sorted newest first. -/
def dbGetRelations (entityType entityId : String) (db : DBState) :
    List MemoryRelation :=
  List.insertionSort newestFirst (db.relations.filter (relMatches entityType entityId))

/-! ## IncidentManager -/

/-- `IncidentManager.createIncident`: build the incident literal (with the
`'Unknown Alert'` / `'warning'` / `'open'` defaults), persist it, append the
`incident_created` timeline event and the `triggered_by` relation, and return
the stored incident. -/
def mgrCreateIncident (alert : Alert) (newId : String) (db : DBState) :
    Incident × DBState :=
  let alertId := jsOr alert.id (some alert.fingerprint) ""
  let init : IncidentInit :=
    { id := newId
      alert_id := alertId
      summary := jsOr alert.summary (lookupStr alert.labels "alertname") "Unknown Alert"
      description := (jsStr alert.description).getD ""
      severity := jsOr alert.severity (lookupStr alert.labels "severity") "warning"
      status := "open"
      labels := alert.labels
      annotations := alert.annotations }
  let (dbIncident, db1) := dbCreateIncident init db
  let (_, db2) := dbAddTimelineEvent newId "incident_created"
    (EventData.incidentCreated alert "prometheus") db1
  let (_, db3) := dbAddMemoryRelation
    { entity_type := "incident"
      entity_id := newId
      related_type := "alert"
      related_id := alertId
      relationship := "triggered_by"
      metadata_timestamp := db2.clock } db2
  (dbIncident, db3)

/-- `IncidentManager.updateIncident`. The status-event payload reads
`incident.status` from the object the store returned — which the in-memory
store has already mutated — so it crashes with a `TypeError` when the store
returned `null`, and otherwise records the post-update status. The `triaged`
and `fix_applied` events only consult the patch, so they are appended even
when the incident was not found. -/
def mgrUpdateIncident (id : String) (updates : UpdatePatch) (db : DBState) :
    Except String (Option Incident) × DBState :=
  let (incOpt, db1) := dbUpdateIncident id updates db
  match jsStr updates.status with
  | some s =>
      match incOpt with
      | none =>
          (Except.error "TypeError: Cannot read properties of null (reading status)", db1)
      | some inc =>
          let (_, db2) := dbAddTimelineEvent id ("status_changed_to_" ++ s)
            (EventData.statusChanged inc.status s db1.clock) db1
          let db3 := match updates.triageResult with
            | some tr =>
                (dbAddTimelineEvent id "triaged"
                  (EventData.triaged tr.hypothesis tr.suggestedActions) db2).2
            | none => db2
          let db4 := match updates.fixResult with
            | some fr =>
                (dbAddTimelineEvent id "fix_applied"
                  (EventData.fixApplied fr.pullRequest fr.appliedFixes fr.success) db3).2
            | none => db3
          (Except.ok incOpt, db4)
  | none =>
      let db3 := match updates.triageResult with
        | some tr =>
            (dbAddTimelineEvent id "triaged"
              (EventData.triaged tr.hypothesis tr.suggestedActions) db1).2
        | none => db1
      let db4 := match updates.fixResult with
        | some fr =>
            (dbAddTimelineEvent id "fix_applied"
              (EventData.fixApplied fr.pullRequest fr.appliedFixes fr.success) db3).2
        | none => db3
      (Except.ok incOpt, db4)

/-- `IncidentManager.getIncident`: the stored in-memory values are structured
(never serialized strings), so the `JSON.parse` branches are identities; then
both attachment spellings are populated from whichever is present. -/
def mgrGetIncident (id : String) (db : DBState) : Option Incident :=
  match dbGetIncident id db with
  | none => none
  | some inc =>
      let inc1 :=
        if inc.triage_result.isNone && inc.triageResult.isSome then
          { inc with triage_result := inc.triageResult }
        else inc
      let inc2 :=
        if inc1.fix_result.isNone && inc1.fixResult.isSome then
          { inc1 with fix_result := inc1.fixResult }
        else inc1
      some { inc2 with
        triageResult := if inc2.triage_result.isSome then inc2.triage_result else inc2.triageResult
        fixResult := if inc2.fix_result.isSome then inc2.fix_result else inc2.fixResult }

/-- `IncidentManager.linkIncidents`: add one `incident → incident` edge. -/
def mgrLinkIncidents (incidentId1 incidentId2 relationship : String) (db : DBState) :
    DBState :=
  (dbAddMemoryRelation
    { entity_type := "incident"
      entity_id := incidentId1
      related_type := "incident"
      related_id := incidentId2
      relationship := relationship
      metadata_timestamp := db.clock } db).2

/-! ## Alert ingestion: WatcherAgent and the webhook handler -/

/-- The ingestion state: the WatcherAgent's `processedAlerts` fingerprint set
and the ordered sequence of `'alert'` events emitted on the shared bus. -/
structure IngestState where
  processedAlerts : List String := []
  emitted : List Alert := []
  deriving DecidableEq, Repr

/-- `WatcherAgent.injectAlert` (the push entry point on the agent): emit only
when the fingerprint is not yet tracked, and track it. -/
def injectAlert (alert : Alert) (s : IngestState) : IngestState :=
  if s.processedAlerts.contains alert.fingerprint then s
  else
    { processedAlerts := alert.fingerprint :: s.processedAlerts
      emitted := s.emitted ++ [alert] }

/-- `WatcherAgent.generateFingerprint`:
base64 of `` `${alertname}-${instance || 'unknown'}-${activeAt}` `` (a missing
label renders as the string `"undefined"` in the template literal). -/
def generateFingerprint (a : RawPromAlert) : String :=
  base64Encode
    ((lookupStr a.labels "alertname").getD "undefined" ++ "-" ++
      jsOr (lookupStr a.labels "instance") none "unknown" ++ "-" ++ a.activeAt)

/-- One alert of a polling cycle in `WatcherAgent.startPolling`: keep only
`firing` alerts, compute the fingerprint, apply the same dedup-set check, and
emit the normalized alert. -/
def pollStep (s : IngestState) (a : RawPromAlert) : IngestState :=
  if a.state == "firing" then
    let fp := generateFingerprint a
    if s.processedAlerts.contains fp then s
    else
      { processedAlerts := fp :: s.processedAlerts
        emitted := s.emitted ++
          [{ fingerprint := fp
             labels := a.labels
             annotations := a.annotations
             startsAt := a.activeAt
             status := some "firing" }] }
  else s

/-- One `setInterval` tick of the poll loop over the backend's active list. -/
def pollCycle (alerts : List RawPromAlert) (s : IngestState) : IngestState :=
  alerts.foldl pollStep s

/-- The `POST /webhook/prometheus` handler in the orchestrator entry point:
it emits every parsed alert directly on the bus
(`alertEmitter.emit('alert', alert)`), without consulting the WatcherAgent's
fingerprint set. -/
def webhookPost (alerts : List Alert) (s : IngestState) : IngestState :=
  { s with emitted := s.emitted ++ alerts }

/-- The `alertEmitter.on('alert', ...)` listener: create an incident for the
alert, then attach the triage result and move the status to `triaged`
(the auto-fix branch is commented out in the source). The triage pipeline's
external lookups are abstracted as the `triageOf` oracle. -/
def handleAlert (triageOf : Alert → TriageResult) (a : Alert) (newId : String)
    (db : DBState) : DBState :=
  let (inc, db1) := mgrCreateIncident a newId db
  let tr := triageOf a
  (mgrUpdateIncident inc.id { triageResult := some tr, status := some "triaged" } db1).2

/-- Deliver every emitted event to the listener, with fresh incident ids. -/
def processEmitted (triageOf : Alert → TriageResult) (alerts : List Alert)
    (db : DBState) : DBState :=
  (alerts.foldl
    (fun (p : DBState × Nat) a =>
      (handleAlert triageOf a ("inc-" ++ toString p.2) p.1, p.2 + 1))
    (db, 0)).1

/-! ## TriageAgent: hypothesis and suggested actions -/

/-- Does the alert's `labels.alertname` contain the given fragment
(`alert.labels?.alertname?.includes(frag)`; a missing label is falsy)? -/
def alertNameHas (alert : Alert) (frag : String) : Bool :=
  match lookupStr alert.labels "alertname" with
  | some n => strIncludes n frag
  | none => false

/-- The evidence line appended for the most recent commit. -/
def commitEvidenceLine (c : CommitInfo) : String :=
  "Recent commit: \"" ++ c.message ++ "\" by " ++ c.author

/-- `TriageAgent.generateHypothesis`, translated statement by statement: the
three-way base rule on the alert, then the recent-change bonus, then the
runbook bonus (each `+0.1`, capped at `1.0`). -/
def generateHypothesis (alert : Alert) (changes : List CommitInfo)
    (runbooks : List Runbook) : Hypothesis :=
  let h0 : Hypothesis :=
    { primaryCause := "Unknown", confidence := 0, evidence := [], suggestedFix := "" }
  let h1 :=
    if alertNameHas alert "Memory" then
      { h0 with
        primaryCause := "Memory exhaustion or leak"
        confidence := 0.8
        evidence := h0.evidence ++ ["Alert name contains \"Memory\""]
        suggestedFix := "Restart affected service or scale horizontally" }
    else if alertNameHas alert "CPU" then
      { h0 with
        primaryCause := "High CPU utilization"
        confidence := 0.75
        evidence := h0.evidence ++ ["Alert name contains \"CPU\""]
        suggestedFix := "Optimize CPU-intensive operations or scale up" }
    else if alert.severity == some "critical" then
      { h0 with
        primaryCause := "Service outage or critical failure"
        confidence := 0.7
        evidence := h0.evidence ++ ["Alert severity is critical"]
        suggestedFix := "Immediate investigation and potential rollback" }
    else h0
  let h2 :=
    match changes with
    | [] => h1
    | recentChange :: _ =>
        { h1 with
          evidence := h1.evidence ++ [commitEvidenceLine recentChange]
          confidence := min (h1.confidence + 0.1) 1.0 }
  match runbooks with
  | [] => h2
  | r :: _ =>
      { h2 with
        evidence := h2.evidence ++
          ["Found " ++ toString runbooks.length ++ " relevant runbook(s)"]
        suggestedFix := r.steps.headD ""
        confidence := min (h2.confidence + 0.1) 1.0 }

/-- `TriageAgent.generateSuggestedActions`, translated statement by
statement: the ticket action always, the runbook action when any runbook
matched, the fix action when confidence exceeds 0.7 (automated above 0.8),
the escalation when confidence is below 0.5. -/
def generateSuggestedActions (hypothesis : Hypothesis) (runbooks : List Runbook) :
    List SuggestedAction :=
  let a1 : List SuggestedAction :=
    [{ type := "create_ticket"
       description := "Create Jira ticket for tracking"
       automated := true }]
  let a2 :=
    match runbooks with
    | [] => a1
    | r :: _ =>
        a1 ++ [{ type := "follow_runbook"
                 description := "Follow runbook: " ++ r.title
                 runbookId := some r.id
                 automated := false }]
  let a3 :=
    if hypothesis.confidence > 0.7 then
      a2 ++ [{ type := "apply_fix"
               description := hypothesis.suggestedFix
               automated := if hypothesis.confidence > 0.8 then true else false }]
    else a2
  if hypothesis.confidence < 0.5 then
    a3 ++ [{ type := "escalate"
             description := "Escalate to on-call engineer"
             automated := true }]
  else a3

/-! ## FixerAgent: the remediation batch -/

/-- A file entry of a generated patch. -/
structure PatchFile where
  path : String
  content : String
  action : String
  deriving DecidableEq, Repr

/-- The `k8s/deployment.yaml` memory-limits patch text. -/
def memoryPatchText : String :=
  "apiVersion: apps/v1\nkind: Deployment\nmetadata:\n  name: app\nspec:\n  template:\n    spec:\n      containers:\n      - name: app\n        resources:\n          limits:\n            memory: \"2Gi\"\n          requests:\n            memory: \"1Gi\""

/-- The `k8s/deployment.yaml` replica-scale patch text. -/
def scalePatchText : String :=
  "apiVersion: apps/v1\nkind: Deployment\nmetadata:\n  name: app\nspec:\n  replicas: 3\n  template:\n    spec:\n      containers:\n      - name: app"

/-- The `config/app.yaml` timeout patch text. -/
def timeoutPatchText : String :=
  "server:\n  timeout: 60\ndatabase:\n  connectionTimeout: 30\n  queryTimeout: 10\nhttp:\n  client:\n    timeout: 30"

/-- `FixerAgent.generatePatch`: a keyword scan of the suggested fix selects
one canned file update (or none). -/
def generatePatch (suggestedFix : String) : List PatchFile :=
  if strIncludes (jsToLower suggestedFix) "memory" then
    [{ path := "k8s/deployment.yaml", content := memoryPatchText, action := "update" }]
  else if strIncludes (jsToLower suggestedFix) "scale" then
    [{ path := "k8s/deployment.yaml", content := scalePatchText, action := "update" }]
  else if strIncludes (jsToLower suggestedFix) "timeout" then
    [{ path := "config/app.yaml", content := timeoutPatchText, action := "update" }]
  else []

/-- External collaborators of `applyFix`: the GitHub pull-request creation
(which throws on failure — `createPullRequest` rethrows), the Jira ticket
creation (which never throws; failure is an in-band `status`), and the
verification poll (`verifyFix` never throws; its result is a status string). -/
structure FixerEnv where
  createPR : Except String PRInfo
  ticket : TicketResult
  verify : String
  deriving Repr

/-- The mutable `results` object of `applyFix` while the loop runs. -/
structure FixAcc where
  appliedFixes : List AppliedFix := []
  pullRequest : Option PRInfo := none
  deriving DecidableEq, Repr

/-- One iteration of `applyFix`'s action loop. A JS exception is an
`Except.error` carrying the accumulator as it stood when the throw happened
(the `results` object persists across the throw). Action types without a
switch case fall through and append nothing. -/
def applyAction (env : FixerEnv) (tr : TriageResult) (acc : FixAcc)
    (action : SuggestedAction) : Except FixAcc FixAcc :=
  if action.type == "apply_fix" then
    let files := generatePatch action.description
    if files.isEmpty then Except.ok acc
    else
      match env.createPR with
      | Except.error _ => Except.error acc
      | Except.ok pr =>
          Except.ok
            { appliedFixes := acc.appliedFixes ++ [AppliedFix.pullRequest pr.url "created"]
              pullRequest := some pr }
  else if action.type == "rollback" then
    let service := jsOr (lookupStr tr.labels "service") none "unknown"
    Except.ok { acc with
      appliedFixes := acc.appliedFixes ++ [AppliedFix.rollback service "previous" "rolled_back"] }
  else if action.type == "restart_service" then
    let service := jsOr (lookupStr tr.labels "service") none "unknown"
    Except.ok { acc with
      appliedFixes := acc.appliedFixes ++ [AppliedFix.restart service "restarted"] }
  else if action.type == "scale_service" then
    let service := jsOr (lookupStr tr.labels "service") none "unknown"
    Except.ok { acc with
      appliedFixes := acc.appliedFixes ++ [AppliedFix.scale service 4 "scaled"] }
  else if action.type == "create_ticket" then
    Except.ok { acc with
      appliedFixes := acc.appliedFixes ++
        [AppliedFix.jiraTicket env.ticket.key env.ticket.url env.ticket.status] }
  else Except.ok acc

/-- `FixerAgent.applyFix`: filter the suggested actions to the approved
types, run them sequentially inside one `try`, and — only when no exception
escaped and at least one fix was applied — wait and verify; `success` is true
iff verification reports `resolved`. The surrounding `catch` swallows the
exception, leaves `verificationStatus` at `pending`, and forces
`success = false`. -/
def applyFix (env : FixerEnv) (tr : TriageResult) (approvedActions : List String) :
    FixResultR :=
  let actionsToApply := tr.suggestedActions.filter (fun a => approvedActions.contains a.type)
  match actionsToApply.foldlM (applyAction env tr) {} with
  | Except.error acc =>
      { alertId := tr.alertId
        appliedFixes := acc.appliedFixes
        pullRequest := acc.pullRequest
        success := false
        verificationStatus := "pending" }
  | Except.ok acc =>
      if acc.appliedFixes.isEmpty then
        { alertId := tr.alertId
          appliedFixes := acc.appliedFixes
          pullRequest := acc.pullRequest
          success := false
          verificationStatus := "pending" }
      else
        { alertId := tr.alertId
          appliedFixes := acc.appliedFixes
          pullRequest := acc.pullRequest
          success := env.verify == "resolved"
          verificationStatus := env.verify }

/-! ## Shared lemmas and concrete fixtures -/

theorem lookupAssoc_insertAssoc (m : List (String × Incident)) (k : String) (v : Incident) :
    lookupAssoc (insertAssoc m k v) k = some v := by
  unfold insertAssoc lookupAssoc
  by_cases h : m.any (fun p => p.1 == k)
  · simp only [h, if_true]
    induction m with
    | nil => simp at h
    | cons p t ih =>
        by_cases hp : p.1 == k
        · simp [List.find?, hp]
        · simp only [List.any_cons, hp, Bool.false_or] at h
          simpa [List.find?, hp] using ih h
  · simp only [h, if_false]
    induction m with
    | nil => simp [List.find?]
    | cons p t ih =>
        simp only [List.any_cons, Bool.or_eq_true, not_or] at h
        have hp : (p.1 == k) = false := by
          cases hpk : p.1 == k
          · rfl
          · exact absurd hpk h.1
        simpa [List.find?, hp] using ih (by simpa using h.2)

/-- The firing alert used by the concrete scenarios
(fingerprint `fp-1`, `HighMemoryUsage`, `critical`). -/
def aCE : Alert :=
  { fingerprint := "fp-1"
    labels := [("alertname", "HighMemoryUsage"), ("severity", "critical")]
    annotations := [("summary", "Memory usage at 95%")]
    startsAt := "t0"
    status := some "firing" }

/-- A fixed triage oracle for the ingestion pipeline scenarios. -/
def constTriage (a : Alert) : TriageResult :=
  { alertId := a.fingerprint
    summary := "s"
    severity := "warning"
    hypothesis := { primaryCause := "Unknown", confidence := 0, evidence := [], suggestedFix := "" }
    suggestedActions := []
    runbooks := [] }

/-- The store after creating one incident `inc-1` from `aCE`. -/
def db1CE : DBState := (mgrCreateIncident aCE "inc-1" emptyDB).2

/-- The store after additionally moving `inc-1` to `resolved`. -/
def dbResolved : DBState :=
  (mgrUpdateIncident "inc-1" { status := some "resolved" } db1CE).2

/-- The ingestion state at startup: empty fingerprint set, no events. -/
def emptyIngest : IngestState := {}

/-- An alert carrying only a fingerprint (every derivable field absent). -/
def aBare : Alert := { fingerprint := "fp-0" }

theorem jsStr_some (s : String) (h : s ≠ "") : jsStr (some s) = some s := by
  unfold jsStr
  split <;> simp_all

/-! ## Claim theorems -/

/-- C1, counterexample: the same firing alert delivered twice through the
`POST /webhook/prometheus` handler is emitted twice on the bus and the
listener creates two incidents for the one fingerprint — the push path does
not apply the fingerprint-set deduplication check the claim asserts. -/
theorem webhook_duplicate_creates_two_incidents :
    aCE.status = some "firing" ∧
    (webhookPost [aCE] (webhookPost [aCE] emptyIngest)).emitted.length = 2 ∧
    (processEmitted constTriage
        (webhookPost [aCE] (webhookPost [aCE] emptyIngest)).emitted emptyDB).incidents.length = 2 :=
  ⟨rfl, rfl, rfl⟩

/-- C1, amended: deduplication by the shared fingerprint set holds on the
pull (polling) path and on `WatcherAgent.injectAlert` — a suppressed
duplicate emits no event, hence creates no incident — but the HTTP webhook
handler emits every delivered alert directly on the bus without the dedup
check, so two webhook deliveries sharing a fingerprint create two incidents. -/
theorem dedup_on_poll_and_inject_not_webhook :
    (∀ (a : Alert) (s : IngestState),
      (injectAlert a s).emitted =
        if s.processedAlerts.contains a.fingerprint then s.emitted else s.emitted ++ [a]) ∧
    (∀ (a : Alert) (s : IngestState), injectAlert a (injectAlert a s) = injectAlert a s) ∧
    (∀ (a : RawPromAlert) (s : IngestState), pollStep (pollStep s a) a = pollStep s a) ∧
    (∀ (alerts : List Alert) (s : IngestState),
      (webhookPost alerts s).emitted = s.emitted ++ alerts) ∧
    (processEmitted constTriage
        (webhookPost [aCE] (webhookPost [aCE] emptyIngest)).emitted emptyDB).incidents.length = 2 := by
  refine ⟨?_, ?_, ?_, fun alerts s => rfl, rfl⟩
  · intro a s
    by_cases h : a.fingerprint ∈ s.processedAlerts <;> simp [injectAlert, h]
  · intro a s
    by_cases h : a.fingerprint ∈ s.processedAlerts
    · simp [injectAlert, h]
    · simp [injectAlert, h, List.mem_cons_self]
  · intro a s
    by_cases hf : a.state == "firing"
    · by_cases h : generateFingerprint a ∈ s.processedAlerts
      · simp [pollStep, hf, h]
      · simp [pollStep, hf, h, List.mem_cons_self]
    · simp [pollStep, hf]

/-- C2, counterexample: after `inc-1` reaches the terminal status
`resolved`, a subsequent `updateIncident` with `status = "new"` moves it
back to the non-terminal `new` — no monotonicity guard exists. -/
theorem resolved_then_new_regresses :
    ((mgrGetIncident "inc-1" dbResolved).map (fun i => i.status)) = some "resolved" ∧
    ((mgrGetIncident "inc-1"
        (mgrUpdateIncident "inc-1" { status := some "new" } dbResolved).2).map
      (fun i => i.status)) = some "new" :=
  ⟨rfl, rfl⟩

/-- C2, amended: `updateIncident` applies a present (truthy) status patch
unconditionally — for every stored incident the status after the call is the
patched value, including when the prior status was terminal. -/
theorem updateIncident_applies_any_status :
    ∀ (db : DBState) (id : String) (s : String),
      (lookupAssoc db.incidents id).isSome = true → s ≠ "" →
      ((mgrGetIncident id (mgrUpdateIncident id { status := some s } db).2).map
        (fun i => i.status)) = some s := by
  intro db id s h hs
  obtain ⟨inc, hinc⟩ := Option.isSome_iff_exists.mp h
  simp [mgrUpdateIncident, dbUpdateIncident, normalizePatch, mirrorPatch, hinc,
    jsStr_some s hs, mgrGetIncident, dbGetIncident, dbAddTimelineEvent,
    lookupAssoc_insertAssoc, assignPatch]
  split_ifs <;> rfl

/-- C2, witness for the amended theorem: the regression from `resolved` to
`new` on the concrete store. -/
theorem updateIncident_applies_any_status_witness :
    ((mgrGetIncident "inc-1" (mgrUpdateIncident "inc-1" { status := some "new" } dbResolved).2).map
      (fun i => i.status)) = some "new" :=
  updateIncident_applies_any_status dbResolved "inc-1" "new" rfl (by decide)

/-- C3, counterexample: the incident returned by `createIncident` has status
`"open"`, not `"new"` as the claim states. -/
theorem createIncident_status_is_open :
    (mgrCreateIncident aCE "inc-1" emptyDB).1.status = "open" ∧ ("open" : String) ≠ "new" :=
  ⟨rfl, by decide⟩

/-- C3, amended: `createIncident` returns an incident whose status is
`"open"`, whose summary defaults to `"Unknown Alert"` and severity to
`"warning"` when absent from the alert; it appends exactly one
`incident_created` timeline event and records exactly one `triggered_by`
relation from the incident to its originating alert. -/
theorem createIncident_behavior :
    ∀ (alert : Alert) (newId : String) (db : DBState),
      (mgrCreateIncident alert newId db).1.status = "open" ∧
      (jsStr alert.summary = none → jsStr (lookupStr alert.labels "alertname") = none →
        (mgrCreateIncident alert newId db).1.summary = "Unknown Alert") ∧
      (jsStr alert.severity = none → jsStr (lookupStr alert.labels "severity") = none →
        (mgrCreateIncident alert newId db).1.severity = "warning") ∧
      (mgrCreateIncident alert newId db).2.timeline =
        db.timeline ++
          [{ id := db.timeline.length + 1
             incident_id := newId
             event_type := "incident_created"
             event_data := EventData.incidentCreated alert "prometheus"
             created_at := db.clock + 1 }] ∧
      (mgrCreateIncident alert newId db).2.relations =
        db.relations ++
          [{ id := db.relations.length + 1
             entity_type := "incident"
             entity_id := newId
             related_type := "alert"
             related_id := jsOr alert.id (some alert.fingerprint) ""
             relationship := "triggered_by"
             metadata_timestamp := db.clock + 2
             created_at := db.clock + 2 }] := by
  intro alert newId db
  refine ⟨rfl, ?_, ?_, rfl, rfl⟩
  · intro h1 h2
    simp [mgrCreateIncident, dbCreateIncident, jsOr, h1, h2]
  · intro h1 h2
    simp [mgrCreateIncident, dbCreateIncident, jsOr, h1, h2]

/-- C3, witness for the amended theorem: a bare alert gets the defaults. -/
theorem createIncident_behavior_witness :
    (mgrCreateIncident aBare "inc-0" emptyDB).1.status = "open" ∧
    (mgrCreateIncident aBare "inc-0" emptyDB).1.summary = "Unknown Alert" ∧
    (mgrCreateIncident aBare "inc-0" emptyDB).1.severity = "warning" := by
  obtain ⟨h1, h2, h3, _, _⟩ := createIncident_behavior aBare "inc-0" emptyDB
  exact ⟨h1, h2 rfl rfl, h3 rfl rfl⟩

/-- The hypothesis-generation policy as the spec states it (§4.4, steps
1 to 4), written from the spec's words to be compared with the source's
`generateHypothesis`. -/
def generateHypothesisSpec (alert : Alert) (changes : List CommitInfo)
    (runbooks : List Runbook) : Hypothesis :=
  let base : Hypothesis :=
    if alertNameHas alert "Memory" then
      { primaryCause := "Memory exhaustion or leak"
        confidence := 0.8
        evidence := ["Alert name contains \"Memory\""]
        suggestedFix := "Restart affected service or scale horizontally" }
    else if alertNameHas alert "CPU" then
      { primaryCause := "High CPU utilization"
        confidence := 0.75
        evidence := ["Alert name contains \"CPU\""]
        suggestedFix := "Optimize CPU-intensive operations or scale up" }
    else if alert.severity == some "critical" then
      { primaryCause := "Service outage or critical failure"
        confidence := 0.7
        evidence := ["Alert severity is critical"]
        suggestedFix := "Immediate investigation and potential rollback" }
    else
      { primaryCause := "Unknown", confidence := 0, evidence := [], suggestedFix := "" }
  let withChange : Hypothesis :=
    match changes with
    | [] => base
    | c :: _ =>
        { base with
          evidence := base.evidence ++ [commitEvidenceLine c]
          confidence := min (base.confidence + 0.1) 1.0 }
  match runbooks with
  | [] => withChange
  | r :: _ =>
      { withChange with
        evidence := withChange.evidence ++
          ["Found " ++ toString runbooks.length ++ " relevant runbook(s)"]
        suggestedFix := r.steps.headD ""
        confidence := min (withChange.confidence + 0.1) 1.0 }

/-- C4: `generateHypothesis` implements exactly the stated deterministic rule
set (it equals the spec-worded policy on every input — in particular it is a
pure function, so identical alert content and identical collaborator
responses give identical results), and on the example — `HighMemoryUsage`,
`critical`, no recent changes, no runbook match — it yields the
memory-exhaustion cause with confidence 0.8. -/
theorem generateHypothesis_policy :
    (∀ (alert : Alert) (changes : List CommitInfo) (runbooks : List Runbook),
      generateHypothesis alert changes runbooks = generateHypothesisSpec alert changes runbooks) ∧
    generateHypothesis aCE [] [] =
      { primaryCause := "Memory exhaustion or leak"
        confidence := 0.8
        evidence := ["Alert name contains \"Memory\""]
        suggestedFix := "Restart affected service or scale horizontally" } :=
  ⟨fun _ _ _ => rfl, rfl⟩

/-- C5, code bug: when a status patch is applied, exactly one
`status_changed_to_<status>` event is appended and `updated_at` is stamped,
but the payload's `previousStatus` slot holds the post-update status (the
code reads `incident.status` from the object the store has already mutated),
not the status held before the update: updating `inc-1` from `open` to
`triaged` records `previousStatus = "triaged"`. -/
theorem status_event_previousStatus_is_new_status :
    ((mgrGetIncident "inc-1" db1CE).map (fun i => i.status)) = some "open" ∧
    ((mgrUpdateIncident "inc-1" { status := some "triaged" } db1CE).2.timeline.filter
      (fun e => e.event_type == "status_changed_to_triaged")).map (fun e => e.event_data) =
      [EventData.statusChanged "triaged" "triaged" 4] ∧
    ((mgrUpdateIncident "inc-1" { status := some "triaged" } db1CE).2.timeline.filter
      (fun e => e.event_type == "status_changed_to_triaged")).length = 1 ∧
    ((mgrGetIncident "inc-1"
        (mgrUpdateIncident "inc-1" { status := some "triaged" } db1CE).2).map
      (fun i => i.updated_at)) = some 3 :=
  ⟨rfl, rfl, rfl, rfl⟩

/-- The triage result used by the remediation scenarios: an approved
`apply_fix` whose suggested fix generates a patch file (its text contains
`scale`), followed by an approved `create_ticket`. -/
def trC6 : TriageResult :=
  { alertId := "fp-1"
    summary := "HighMemoryUsage"
    severity := "critical"
    hypothesis :=
      { primaryCause := "Memory exhaustion or leak"
        confidence := 0.9
        evidence := []
        suggestedFix := "Restart affected service or scale horizontally" }
    suggestedActions := [
      { type := "apply_fix"
        description := "Restart affected service or scale horizontally"
        automated := true },
      { type := "create_ticket"
        description := "Create Jira ticket for tracking"
        automated := true }]
    runbooks := [] }

/-- The approved action types of the remediation scenarios. -/
def apprC6 : List String := ["apply_fix", "create_ticket"]

/-- A triage result whose approved actions are a ticket and a restart. -/
def trTicketRestart : TriageResult :=
  { trC6 with
    suggestedActions := [
      { type := "create_ticket"
        description := "Create Jira ticket for tracking"
        automated := true },
      { type := "restart_service"
        description := "Restart the affected service"
        automated := true }] }

/-- A triage result whose one `apply_fix` action has a description matching
no patch keyword, so its generated patch has no files. -/
def trNoFiles : TriageResult :=
  { trC6 with
    suggestedActions := [
      { type := "apply_fix"
        description := "Investigate the root cause"
        automated := true }] }

/-- C6, counterexample: with two approved actions, a thrown pull-request
creation error aborts the whole batch — `appliedFixes` stays empty, so the
approved `create_ticket` that follows never executes and no outcome is
appended for either action. -/
theorem applyFix_throw_aborts_batch :
    (trC6.suggestedActions.filter (fun a => apprC6.contains a.type)).length = 2 ∧
    applyFix
        { createPR := Except.error "Request failed with status code 403"
          ticket := { status := "created", key := "OPS-1", url := "https://jira/OPS-1" }
          verify := "resolved" } trC6 apprC6 =
      { alertId := "fp-1"
        appliedFixes := []
        pullRequest := none
        success := false
        verificationStatus := "pending" } :=
  ⟨rfl, rfl⟩

/-- C6, amended: `applyFix` executes the approved actions sequentially and
appends the outcome of every handled action that returns in-band — including
in-band failures such as a failed Jira ticket creation, which do not abort
the batch — but an action that throws (pull-request creation failing) aborts
the remaining approved actions with `success = false` and verification
skipped; an `apply_fix` whose generated patch has no files appends no
outcome. -/
theorem applyFix_batch_behavior :
    (∀ (tk : TicketResult) (v : String) (pr : PRInfo),
      applyFix { createPR := Except.ok pr, ticket := tk, verify := v } trTicketRestart
          ["create_ticket", "restart_service"] =
        { alertId := trTicketRestart.alertId
          appliedFixes := [AppliedFix.jiraTicket tk.key tk.url tk.status,
            AppliedFix.restart "unknown" "restarted"]
          pullRequest := none
          success := (v == "resolved")
          verificationStatus := v }) ∧
    (∀ (e : String) (tk : TicketResult) (v : String),
      applyFix { createPR := Except.error e, ticket := tk, verify := v } trC6 apprC6 =
        { alertId := trC6.alertId
          appliedFixes := []
          pullRequest := none
          success := false
          verificationStatus := "pending" }) ∧
    (∀ (pr : PRInfo) (tk : TicketResult) (v : String),
      applyFix { createPR := Except.ok pr, ticket := tk, verify := v } trNoFiles ["apply_fix"] =
        { alertId := trNoFiles.alertId
          appliedFixes := []
          pullRequest := none
          success := false
          verificationStatus := "pending" }) :=
  ⟨fun _ _ _ => rfl, fun _ _ _ => rfl, fun _ _ _ => rfl⟩

/-- A hypothesis with confidence 0.3 (below every action threshold). -/
def hLow : Hypothesis :=
  { primaryCause := "Unknown", confidence := 0.3, evidence := [], suggestedFix := "f" }

/-- C7, counterexample: at confidence 0.3 the derived actions are only the
ticket and the escalation — no `apply_fix` action is contained, because the
code includes one only when confidence exceeds 0.7, while the claim asserts
an `apply_fix` action is always contained. -/
theorem low_confidence_has_no_apply_fix :
    ((generateSuggestedActions hLow []).map (fun a => a.type)) = ["create_ticket", "escalate"] ∧
    ((generateSuggestedActions hLow []).filter (fun a => a.type == "apply_fix")) = [] := by
  have h7 : ¬ (hLow.confidence > 0.7) := by norm_num [hLow]
  have h5 : hLow.confidence < 0.5 := by norm_num [hLow]
  rw [show generateSuggestedActions hLow [] =
      [{ type := "create_ticket", description := "Create Jira ticket for tracking",
         automated := true },
       { type := "escalate", description := "Escalate to on-call engineer",
         automated := true }] from by
    simp [generateSuggestedActions, if_neg h7, if_pos h5]]
  exact ⟨rfl, rfl⟩

/-- C7, amended: the derived actions always contain the automated
create-ticket action; contain a manual follow-runbook action iff a runbook
matched; contain an apply-fix action iff confidence exceeds 0.7 — not
always — and, when present, its automated flag is true iff confidence
exceeds 0.8; and contain an automated escalate action iff confidence is
below 0.5. -/
theorem suggestedActions_rules :
    ∀ (h : Hypothesis) (rbs : List Runbook),
      (∃ a ∈ generateSuggestedActions h rbs, a.type = "create_ticket" ∧ a.automated = true) ∧
      ((∃ a ∈ generateSuggestedActions h rbs, a.type = "follow_runbook") ↔ rbs ≠ []) ∧
      (∀ a ∈ generateSuggestedActions h rbs, a.type = "follow_runbook" → a.automated = false) ∧
      ((∃ a ∈ generateSuggestedActions h rbs, a.type = "apply_fix") ↔ h.confidence > 0.7) ∧
      (∀ a ∈ generateSuggestedActions h rbs, a.type = "apply_fix" →
        (a.automated = true ↔ h.confidence > 0.8)) ∧
      ((∃ a ∈ generateSuggestedActions h rbs, a.type = "escalate") ↔ h.confidence < 0.5) ∧
      (∀ a ∈ generateSuggestedActions h rbs, a.type = "escalate" → a.automated = true) := by
  intro h rbs
  rcases rbs with _ | ⟨r, rest⟩ <;>
    simp only [generateSuggestedActions] <;>
    split_ifs <;>
    simp_all

/-- C8, code bug: for an id with no stored incident, a patch carrying a
status does not return the not-found result — the code throws a `TypeError`
while building the status event from the `null` the store returned (the
repository's own unit test expects `null` here) — and a patch carrying a
`triageResult` appends a `triaged` timeline event despite the incident not
existing. -/
theorem updateIncident_notfound_bug :
    (mgrUpdateIncident "non-existent" { status := some "resolved" } emptyDB).1 =
      Except.error "TypeError: Cannot read properties of null (reading status)" ∧
    (mgrUpdateIncident "non-existent" { status := some "resolved" } emptyDB).2.timeline = [] ∧
    (mgrUpdateIncident "missing" { triageResult := some (constTriage aBare) } emptyDB).1 =
      Except.ok none ∧
    ((mgrUpdateIncident "missing" { triageResult := some (constTriage aBare) } emptyDB).2.timeline.map
      (fun e => e.event_type)) = ["triaged"] :=
  ⟨rfl, rfl, rfl, rfl⟩

/-- C9: dual-naming round trip — after `createIncident`, optionally followed
by an update attaching triage/fix data under either spelling, `getIncident`
returns the stored `labels`/`annotations` structurally unchanged and both
the camelCase and snake_case attachment spellings populated with the same
stored values. -/
theorem roundtrip_dual_naming :
    ∀ (alert : Alert) (id : String) (db : DBState) (tr : TriageResult) (fr : FixResultR),
      ((mgrGetIncident id (mgrCreateIncident alert id db).2).map
        (fun i => (i.labels, i.annotations, i.triage_result, i.triageResult,
          i.fix_result, i.fixResult))) =
        some (alert.labels, alert.annotations, none, none, none, none) ∧
      ((mgrGetIncident id
          (mgrUpdateIncident id { triageResult := some tr, fixResult := some fr }
            (mgrCreateIncident alert id db).2).2).map
        (fun i => (i.labels, i.annotations, i.triage_result, i.triageResult,
          i.fix_result, i.fixResult))) =
        some (alert.labels, alert.annotations, some tr, some tr, some fr, some fr) ∧
      ((mgrGetIncident id
          (mgrUpdateIncident id { triage_result := some tr, fix_result := some fr }
            (mgrCreateIncident alert id db).2).2).map
        (fun i => (i.labels, i.annotations, i.triage_result, i.triageResult,
          i.fix_result, i.fixResult))) =
        some (alert.labels, alert.annotations, some tr, some tr, some fr, some fr) := by
  intro alert id db tr fr
  refine ⟨?_, ?_, ?_⟩ <;>
    simp [mgrCreateIncident, dbCreateIncident, dbAddTimelineEvent, dbAddMemoryRelation,
      mgrGetIncident, dbGetIncident, mgrUpdateIncident, dbUpdateIncident, normalizePatch,
      mirrorPatch, assignPatch, jsStr, lookupAssoc_insertAssoc]

/-- The edge record `linkIncidents` appends when run against the store `db`. -/
def linkEdge (a b rel : String) (db : DBState) : MemoryRelation :=
  { id := db.relations.length + 1
    entity_type := "incident"
    entity_id := a
    related_type := "incident"
    related_id := b
    relationship := rel
    metadata_timestamp := db.clock
    created_at := db.clock }

instance : IsTotal MemoryRelation newestFirst :=
  ⟨fun a b => le_total b.created_at a.created_at⟩

instance : IsTrans MemoryRelation newestFirst :=
  ⟨fun _ _ _ hab hbc => le_trans hbc hab⟩

/-- C10: relation lookup is bidirectional — `getRelations` returns exactly
the stored edges whose entity side or related side matches the queried pair,
ordered newest first — and an edge added by `linkIncidents A B rel` is
returned both for `('incident', A)` and for `('incident', B)`. -/
theorem relations_bidirectional_newest_first :
    (∀ (et ei : String) (db : DBState) (r : MemoryRelation),
      r ∈ dbGetRelations et ei db ↔ (r ∈ db.relations ∧ relMatches et ei r = true)) ∧
    (∀ (et ei : String) (db : DBState),
      List.Sorted newestFirst (dbGetRelations et ei db)) ∧
    (∀ (a b rel : String) (db : DBState),
      linkEdge a b rel db ∈ dbGetRelations "incident" a (mgrLinkIncidents a b rel db) ∧
      linkEdge a b rel db ∈ dbGetRelations "incident" b (mgrLinkIncidents a b rel db)) := by
  refine ⟨?_, ?_, ?_⟩
  · intro et ei db r
    simp [dbGetRelations, List.mem_filter]
  · intro et ei db
    exact List.sorted_insertionSort newestFirst _
  · intro a b rel db
    constructor <;>
      simp [dbGetRelations, List.mem_filter, mgrLinkIncidents, dbAddMemoryRelation,
        linkEdge, relMatches]

end OpsPilot
